import Mathlib

/-!
Verification of the orbit-camera navigation core of the CAD viewport
(src/main.py).  The camera state and its mutating operations
(orbit / pan / zoom / reset), the view-name classifier and the
mouse-callback drag dispatch are embedded as Lean definitions over
the real numbers, and the claims of the specification are settled as
theorems about those definitions.
-/

namespace StandardVolumes

noncomputable section

/-- Vec3 models a Python 3-element list or numpy array of floats. -/
abbrev Vec3 := ℝ × ℝ × ℝ

/-- Degrees to radians, as math.radians. -/
def radians (d : ℝ) : ℝ := d * Real.pi / 180

/-- Euclidean norm of a 3-vector, as np.linalg.norm (src/main.py lines 57, 61, 64). -/
def norm3 (v : Vec3) : ℝ := Real.sqrt (v.1 * v.1 + v.2.1 * v.2.1 + v.2.2 * v.2.2)

/-- Cross product of 3-vectors, as np.cross (src/main.py lines 60, 63). -/
def cross3 (a b : Vec3) : Vec3 :=
  (a.2.1 * b.2.2 - a.2.2 * b.2.1,
   a.2.2 * b.1 - a.1 * b.2.2,
   a.1 * b.2.1 - a.2.1 * b.1)

/-- Componentwise division of a 3-vector by a scalar, as numpy v / k. -/
def div3 (v : Vec3) (k : ℝ) : Vec3 := (v.1 / k, v.2.1 / k, v.2.2 / k)

/-- Componentwise multiplication of a 3-vector by a scalar on the right,
as numpy v * k. -/
def mul3s (v : Vec3) (k : ℝ) : Vec3 := (v.1 * k, v.2.1 * k, v.2.2 * k)

/-- Camera state (src/main.py lines 8-21).  The Python fields last_x,
last_y, first_mouse and zoom_factor are written in __init__ and never
read anywhere in the program; sensitivity and pan_sensitivity are set
once in __init__ and never reassigned, so they are modelled as the
constants camSensitivity and panSensitivity below. -/
structure Camera where
  position : Vec3
  target : Vec3
  up : Vec3
  orbit_radius : ℝ
  orbit_angle_h : ℝ
  orbit_angle_v : ℝ

/-- self.sensitivity = 0.5 (src/main.py line 16). -/
def camSensitivity : ℝ := 0.5

/-- self.pan_sensitivity = 0.05 (src/main.py line 21). -/
def panSensitivity : ℝ := 0.05

/-- Camera.__init__ field values (src/main.py lines 9-21). -/
def Camera.init : Camera where
  position := (0, 10, 20)
  target := (0, 0, 0)
  up := (0, 1, 0)
  orbit_radius := 20
  orbit_angle_h := 0
  orbit_angle_v := 45

/-- Camera.update_camera_vectors (src/main.py lines 23-35): recompute
position from target plus the spherical offset of (orbit_radius,
orbit_angle_h, orbit_angle_v). -/
def Camera.update_camera_vectors (c : Camera) : Camera :=
  let y := c.orbit_radius * Real.sin (radians c.orbit_angle_v)
  let radius_xz := c.orbit_radius * Real.cos (radians c.orbit_angle_v)
  let x := radius_xz * Real.cos (radians c.orbit_angle_h)
  let z := radius_xz * Real.sin (radians c.orbit_angle_h)
  { c with position := (c.target.1 + x, c.target.2.1 + y, c.target.2.2 + z) }

/-- Camera.process_orbit (src/main.py lines 37-48): add scaled deltas to
the angles, clamp the vertical angle into [-89, 89] by the two
sequential ifs of the source, then recompute the position. -/
def Camera.process_orbit (c : Camera) (dx dy : ℝ) : Camera :=
  let h := c.orbit_angle_h + dx * camSensitivity
  let v0 := c.orbit_angle_v + dy * camSensitivity
  let v1 := if v0 > 89 then 89 else v0
  let v2 := if v1 < -89 then -89 else v1
  Camera.update_camera_vectors { c with orbit_angle_h := h, orbit_angle_v := v2 }

/-- The forward vector target - position computed at the start of
Camera.process_pan (src/main.py lines 52-56), before it is divided by
its norm. -/
def Camera.pan_forward (c : Camera) : Vec3 :=
  (c.target.1 - c.position.1,
   c.target.2.1 - c.position.2.1,
   c.target.2.2 - c.position.2.2)

/-- Camera.process_pan (src/main.py lines 50-76): build the right/up
basis by normalized cross products, scale the deltas by
orbit_radius * pan_sensitivity, and subtract right_amount - up_amount
from every component of both target and position.  The source divides
by each norm unconditionally, with no zero-norm guard. -/
def Camera.process_pan (c : Camera) (dx dy : ℝ) : Camera :=
  let forward0 := c.pan_forward
  let forward := div3 forward0 (norm3 forward0)
  let world_up : Vec3 := (0, 1, 0)
  let right0 := cross3 forward world_up
  let right := div3 right0 (norm3 right0)
  let up0 := cross3 right forward
  let up := div3 up0 (norm3 up0)
  let pan_scale := c.orbit_radius * panSensitivity
  let right_amount := mul3s (mul3s right dx) pan_scale
  let up_amount := mul3s (mul3s up dy) pan_scale
  { c with
    target := (c.target.1 - (right_amount.1 - up_amount.1),
               c.target.2.1 - (right_amount.2.1 - up_amount.2.1),
               c.target.2.2 - (right_amount.2.2 - up_amount.2.2)),
    position := (c.position.1 - (right_amount.1 - up_amount.1),
                 c.position.2.1 - (right_amount.2.1 - up_amount.2.1),
                 c.position.2.2 - (right_amount.2.2 - up_amount.2.2)) }

/-- Camera.process_zoom (src/main.py lines 78-88): shrink the radius by
amount * orbit_radius * 0.1, clamp into [1, 100] by the two sequential
ifs of the source, then recompute the position. -/
def Camera.process_zoom (c : Camera) (amount : ℝ) : Camera :=
  let r0 := c.orbit_radius - amount * c.orbit_radius * 0.1
  let r1 := if r0 < 1 then 1 else r0
  let r2 := if r1 > 100 then 100 else r1
  Camera.update_camera_vectors { c with orbit_radius := r2 }

/-- Horizontal-angle normalization of Camera.get_view_name
(src/main.py lines 100-103): Python float h % 360 is
h - 360 * floor(h / 360), followed by the (dead for positive modulus)
correction branch of the source. -/
def normalizeH (h : ℝ) : ℝ :=
  let a := h - 360 * (⌊h / 360⌋ : ℝ)
  if a < 0 then a + 360 else a

/-- Cardinal-direction branch of Camera.get_view_name
(src/main.py lines 105-113). -/
def viewDirection (h : ℝ) : String :=
  let hn := normalizeH h
  if 45 ≤ hn ∧ hn < 135 then "Front"
  else if 135 ≤ hn ∧ hn < 225 then "Right"
  else if 225 ≤ hn ∧ hn < 315 then "Back"
  else "Left"

/-- Elevation-qualifier branch of Camera.get_view_name
(src/main.py lines 115-121). -/
def viewQualifier (v : ℝ) : String :=
  if 60 ≤ v then "Top"
  else if v ≤ -60 then "Bottom"
  else ""

/-- Camera.get_view_name (src/main.py lines 98-126): combine the
qualifier and the direction; the Python truthiness test on the
qualifier string is nonemptiness. -/
def Camera.get_view_name (c : Camera) : String :=
  let direction := viewDirection c.orbit_angle_h
  let qualifier := viewQualifier c.orbit_angle_v
  if qualifier ≠ "" then qualifier ++ " " ++ direction else direction

/-- Reset (HOME key branch of CADPlatform.key_callback, src/main.py
lines 257-260): replace the camera by a fresh Camera() and call
update_camera_vectors; the previous state is discarded. -/
def Camera.reset (_c : Camera) : Camera :=
  Camera.init.update_camera_vectors

/-- Spherical offset determined by (orbit_radius, orbit_angle_h,
orbit_angle_v), the vector update_camera_vectors adds to the target. -/
def svec (c : Camera) : Vec3 :=
  (c.orbit_radius * Real.cos (radians c.orbit_angle_v) * Real.cos (radians c.orbit_angle_h),
   c.orbit_radius * Real.sin (radians c.orbit_angle_v),
   c.orbit_radius * Real.cos (radians c.orbit_angle_v) * Real.sin (radians c.orbit_angle_h))

/-- The eye-position invariant: position equals target plus the
spherical offset of the three drive values. -/
def consistent (c : Camera) : Prop :=
  c.position = c.target + svec c

/-- Public mutating operations of the camera controller. -/
inductive CameraOp where
  | orbit (dx dy : ℝ)
  | pan (dx dy : ℝ)
  | zoom (amount : ℝ)
  | reset

/-- Apply one public operation to the camera. -/
def stepOp (c : Camera) : CameraOp → Camera
  | .orbit dx dy => c.process_orbit dx dy
  | .pan dx dy => c.process_pan dx dy
  | .zoom a => c.process_zoom a
  | .reset => c.reset

/-- The initialized start state: CADPlatform.initialize constructs the
camera and calls update_camera_vectors (src/main.py line 183). -/
def startCamera : Camera := Camera.init.update_camera_vectors

/-- Run a sequence of public operations from the initialized start state. -/
def runOps (ops : List CameraOp) : Camera := ops.foldl stepOp startCamera

/-- update_camera_vectors establishes the eye-position invariant:
the computed position is exactly target + svec. -/
lemma consistent_update (c : Camera) : consistent c.update_camera_vectors := by
  simp [consistent, Camera.update_camera_vectors, svec, Prod.ext_iff]

/-- process_pan preserves the eye-position invariant: target and
position are shifted by the same vector while the three drive values
are untouched. -/
lemma consistent_pan (c : Camera) (dx dy : ℝ) (h : consistent c) :
    consistent (c.process_pan dx dy) := by
  have h1 := congrArg Prod.fst h
  have h2 := congrArg (fun p : Vec3 => p.2.1) h
  have h3 := congrArg (fun p : Vec3 => p.2.2) h
  simp only [Prod.fst_add, Prod.snd_add] at h1 h2 h3
  simp only [consistent, Camera.process_pan, Camera.pan_forward, svec,
    Prod.ext_iff, Prod.fst_add, Prod.snd_add] at *
  exact ⟨by linarith, by linarith, by linarith⟩

/-- Every public operation preserves the eye-position invariant. -/
lemma consistent_stepOp (c : Camera) (op : CameraOp) (h : consistent c) :
    consistent (stepOp c op) := by
  cases op with
  | orbit dx dy => exact consistent_update _
  | pan dx dy => exact consistent_pan c dx dy h
  | zoom a => exact consistent_update _
  | reset => exact consistent_update _

/-- Folding any operation list preserves the eye-position invariant. -/
lemma foldl_consistent (ops : List CameraOp) :
    ∀ c, consistent c → consistent (ops.foldl stepOp c) := by
  induction ops with
  | nil => exact fun c h => h
  | cons op rest ih => exact fun c h => ih _ (consistent_stepOp c op h)

/-- C1: after every sequence of the public mutating operations applied
from the initialized start state, the stored position equals
target + (x, y, z) with y = r * sin(radians v),
x = r * cos(radians v) * cos(radians h), z = r * cos(radians v) *
sin(radians h); no operation leaves the position inconsistent with
(target, orbit_radius, orbit_angle_h, orbit_angle_v). -/
theorem eye_position_always_consistent (ops : List CameraOp) :
    consistent (runOps ops) :=
  foldl_consistent ops startCamera (consistent_update Camera.init)

/-- One orbit step always lands the vertical angle in [-89, 89],
whatever the starting angle and deltas. -/
lemma process_orbit_v_bounds (c : Camera) (dx dy : ℝ) :
    -89 ≤ (c.process_orbit dx dy).orbit_angle_v ∧
      (c.process_orbit dx dy).orbit_angle_v ≤ 89 := by
  simp only [Camera.process_orbit, Camera.update_camera_vectors]
  constructor <;> split_ifs <;> linarith

/-- C2: starting from any vertical angle inside [-89, 89], after each
call of any finite sequence of orbit deltas the vertical angle is
still inside [-89, 89]. -/
theorem orbit_v_always_in_bounds (c : Camera) (ds : List (ℝ × ℝ))
    (hlo : -89 ≤ c.orbit_angle_v) (hhi : c.orbit_angle_v ≤ 89) :
    -89 ≤ (ds.foldl (fun s p => s.process_orbit p.1 p.2) c).orbit_angle_v ∧
      (ds.foldl (fun s p => s.process_orbit p.1 p.2) c).orbit_angle_v ≤ 89 := by
  induction ds generalizing c with
  | nil => exact ⟨hlo, hhi⟩
  | cons d rest ih =>
      simp only [List.foldl_cons]
      exact ih _ (process_orbit_v_bounds c d.1 d.2).1 (process_orbit_v_bounds c d.1 d.2).2

/-- C2 witness: the bound theorem applied at the default camera and a
concrete one-step delta list. -/
theorem orbit_v_always_in_bounds_witness :
    -89 ≤ (([((1:ℝ), (2:ℝ))]).foldl (fun s p => s.process_orbit p.1 p.2)
        Camera.init).orbit_angle_v ∧
      (([((1:ℝ), (2:ℝ))]).foldl (fun s p => s.process_orbit p.1 p.2)
        Camera.init).orbit_angle_v ≤ 89 :=
  orbit_v_always_in_bounds Camera.init [(1, 2)]
    (by norm_num [Camera.init]) (by norm_num [Camera.init])

/-- C3: process_zoom sets the radius to the clamp of
r - amount * r * 0.1 into [1, 100], hence the resulting radius is in
[1, 100], and it recomputes the position. -/
theorem zoom_clamps_radius (c : Camera) (amount : ℝ)
    (h1 : 1 ≤ c.orbit_radius) (h2 : c.orbit_radius ≤ 100) :
    (c.process_zoom amount).orbit_radius =
        max 1 (min 100 (c.orbit_radius - amount * c.orbit_radius * 0.1)) ∧
      1 ≤ (c.process_zoom amount).orbit_radius ∧
      (c.process_zoom amount).orbit_radius ≤ 100 ∧
      consistent (c.process_zoom amount) := by
  refine ⟨?_, ?_, ?_, consistent_update _⟩
  · simp only [Camera.process_zoom, Camera.update_camera_vectors]
    rw [max_def, min_def]
    split_ifs <;> linarith
  · simp only [Camera.process_zoom, Camera.update_camera_vectors]
    split_ifs <;> linarith
  · simp only [Camera.process_zoom, Camera.update_camera_vectors]
    split_ifs <;> linarith

/-- C3 witness: the zoom theorem applied to the default camera at
amount 0. -/
theorem zoom_clamps_radius_witness :
    (Camera.init.process_zoom 0).orbit_radius =
        max 1 (min 100 (Camera.init.orbit_radius - 0 * Camera.init.orbit_radius * 0.1)) ∧
      1 ≤ (Camera.init.process_zoom 0).orbit_radius ∧
      (Camera.init.process_zoom 0).orbit_radius ≤ 100 ∧
      consistent (Camera.init.process_zoom 0) :=
  zoom_clamps_radius Camera.init 0 (by norm_num [Camera.init]) (by norm_num [Camera.init])

/-- process_pan shifts position and target by the same vector. -/
lemma process_pan_shift (c : Camera) (dx dy : ℝ) :
    (c.process_pan dx dy).position - c.position =
      (c.process_pan dx dy).target - c.target := by
  simp only [Camera.process_pan, Camera.pan_forward, Prod.ext_iff,
    Prod.fst_sub, Prod.snd_sub]
  refine ⟨?_, ?_, ?_⟩ <;> ring

/-- C5: pan leaves the radius and both orbit angles unchanged and
translates target and position by one common movement vector, so the
eye-target difference vector and hence the eye-target distance are
preserved. -/
theorem pan_translates_both (c : Camera) (dx dy : ℝ)
    (hne : c.position ≠ c.target) :
    (c.process_pan dx dy).orbit_radius = c.orbit_radius ∧
      (c.process_pan dx dy).orbit_angle_h = c.orbit_angle_h ∧
      (c.process_pan dx dy).orbit_angle_v = c.orbit_angle_v ∧
      ∃ d : Vec3, (c.process_pan dx dy).target = c.target + d ∧
        (c.process_pan dx dy).position = c.position + d ∧
        (c.process_pan dx dy).position - (c.process_pan dx dy).target =
          c.position - c.target ∧
        norm3 ((c.process_pan dx dy).position - (c.process_pan dx dy).target) =
          norm3 (c.position - c.target) := by
  have hshift := process_pan_shift c dx dy
  have hdiff : (c.process_pan dx dy).position - (c.process_pan dx dy).target =
      c.position - c.target := by
    rw [sub_eq_sub_iff_sub_eq_sub]
    exact hshift
  refine ⟨rfl, rfl, rfl, (c.process_pan dx dy).target - c.target, by abel, ?_,
    hdiff, congrArg norm3 hdiff⟩
  rw [← hshift]
  abel

/-- Camera used to instantiate the pan theorem on a concrete
non-degenerate state. -/
def panWitnessCamera : Camera where
  position := (1, 0, 0)
  target := (0, 0, 0)
  up := (0, 1, 0)
  orbit_radius := 1
  orbit_angle_h := 0
  orbit_angle_v := 0

/-- C5 witness: the pan theorem applied at a concrete non-degenerate
camera and the deltas (1, 0). -/
theorem pan_translates_both_witness :
    (panWitnessCamera.process_pan 1 0).orbit_radius = panWitnessCamera.orbit_radius ∧
      (panWitnessCamera.process_pan 1 0).orbit_angle_h = panWitnessCamera.orbit_angle_h ∧
      (panWitnessCamera.process_pan 1 0).orbit_angle_v = panWitnessCamera.orbit_angle_v ∧
      ∃ d : Vec3, (panWitnessCamera.process_pan 1 0).target = panWitnessCamera.target + d ∧
        (panWitnessCamera.process_pan 1 0).position = panWitnessCamera.position + d ∧
        (panWitnessCamera.process_pan 1 0).position - (panWitnessCamera.process_pan 1 0).target =
          panWitnessCamera.position - panWitnessCamera.target ∧
        norm3 ((panWitnessCamera.process_pan 1 0).position -
            (panWitnessCamera.process_pan 1 0).target) =
          norm3 (panWitnessCamera.position - panWitnessCamera.target) :=
  pan_translates_both panWitnessCamera 1 0
    (by norm_num [panWitnessCamera, Prod.ext_iff])

/-- A camera whose position coincides with its target: the degenerate
geometry process_pan does not guard against. -/
def degenerateCamera : Camera where
  position := (0, 0, 0)
  target := (0, 0, 0)
  up := (0, 1, 0)
  orbit_radius := 1
  orbit_angle_h := 0
  orbit_angle_v := 0

/-- C6: at a state with position = target, the forward vector
process_pan computes is the zero vector and the norm it then divides
by unconditionally is 0 — the source has no zero-norm guard before
the division forward / norm(forward). -/
theorem pan_divides_by_zero_norm_when_degenerate :
    Camera.pan_forward degenerateCamera = (0, 0, 0) ∧
      norm3 (Camera.pan_forward degenerateCamera) = 0 := by
  constructor
  · simp [Camera.pan_forward, degenerateCamera]
  · simp [Camera.pan_forward, degenerateCamera, norm3]

/-- C8: reset restores the exact startup drive values
(target (0,0,0), radius 20, horizontal angle 0, vertical angle 45),
recomputes the position, and is idempotent. -/
theorem reset_restores_startup_state (c : Camera) :
    (c.reset).target = (0, 0, 0) ∧
      (c.reset).orbit_radius = 20 ∧
      (c.reset).orbit_angle_h = 0 ∧
      (c.reset).orbit_angle_v = 45 ∧
      consistent c.reset ∧
      (c.reset).reset = c.reset :=
  ⟨rfl, rfl, rfl, rfl, consistent_update _, rfl⟩

/-- The normalized horizontal angle always lies in [0, 360). -/
lemma normalizeH_bounds (h : ℝ) : 0 ≤ normalizeH h ∧ normalizeH h < 360 := by
  have key : h - 360 * (⌊h / 360⌋ : ℝ) = 360 * Int.fract (h / 360) := by
    rw [← Int.self_sub_floor]
    ring
  have h0 : 0 ≤ h - 360 * (⌊h / 360⌋ : ℝ) := by
    rw [key]
    exact mul_nonneg (by norm_num) (Int.fract_nonneg _)
  have h1 : h - 360 * (⌊h / 360⌋ : ℝ) < 360 := by
    rw [key]
    have := Int.fract_lt_one (h / 360)
    linarith
  simp only [normalizeH]
  rw [if_neg (not_lt.mpr h0)]
  exact ⟨h0, h1⟩

/-- Angles already in [0, 360) are unchanged by the normalization. -/
lemma normalizeH_eq (h : ℝ) (h0 : 0 ≤ h) (h1 : h < 360) : normalizeH h = h := by
  have hfl : (⌊h / 360⌋ : ℤ) = 0 := by
    rw [Int.floor_eq_zero_iff, Set.mem_Ico]
    constructor
    · positivity
    · rw [div_lt_one (by norm_num : (0:ℝ) < 360)]
      linarith
  simp only [normalizeH, hfl, Int.cast_zero, mul_zero, sub_zero]
  rw [if_neg (not_lt.mpr h0)]

/-- The direction branch always produces one of the four cardinal
strings. -/
lemma viewDirection_cases (h : ℝ) :
    viewDirection h = "Front" ∨ viewDirection h = "Right" ∨
      viewDirection h = "Back" ∨ viewDirection h = "Left" := by
  simp only [viewDirection]
  split_ifs <;> simp

/-- Camera at horizontal angle 0 and vertical angle 45. -/
def cam0 : Camera := ⟨(0, 0, 0), (0, 0, 0), (0, 1, 0), 20, 0, 45⟩

/-- Camera at horizontal angle 90 and vertical angle 45. -/
def cam90 : Camera := ⟨(0, 0, 0), (0, 0, 0), (0, 1, 0), 20, 90, 45⟩

/-- Concrete evaluation of the classifier at horizontal angles 0 and
90 with vertical angle 45. -/
lemma cam_concrete_names : cam0.get_view_name = "Left" ∧ cam90.get_view_name = "Front" := by
  have hq45 : viewQualifier (45 : ℝ) = "" := by
    simp only [viewQualifier]
    rw [if_neg (by norm_num), if_neg (by norm_num)]
  have hn90 : normalizeH (90 : ℝ) = 90 := normalizeH_eq 90 (by norm_num) (by norm_num)
  have hn0 : normalizeH (0 : ℝ) = 0 := normalizeH_eq 0 le_rfl (by norm_num)
  have hd90 : viewDirection (90 : ℝ) = "Front" := by
    simp only [viewDirection, hn90]
    rw [if_pos (by norm_num)]
  have hd0 : viewDirection (0 : ℝ) = "Left" := by
    simp only [viewDirection, hn0]
    rw [if_neg (by norm_num), if_neg (by norm_num), if_neg (by norm_num)]
  constructor
  · simp only [Camera.get_view_name, cam0, hq45, hd0]
    rw [if_neg (fun hc => hc rfl)]
  · simp only [Camera.get_view_name, cam90, hq45, hd90]
    rw [if_neg (fun hc => hc rfl)]

/-- C4 counterexample: at the normalized horizontal angle 90 — which
lies in [45, 135) — and vertical angle 45, get_view_name returns
"Front", not "Right"; and at horizontal angle 0 it returns "Left",
which is not in the sector the claim calls Front. -/
theorem classify_at_90_is_front_not_right :
    cam90.get_view_name = "Front" ∧ cam90.get_view_name ≠ "Right" ∧
      cam0.get_view_name = "Left" := by
  refine ⟨cam_concrete_names.2, ?_, cam_concrete_names.1⟩
  rw [cam_concrete_names.2]
  decide

/-- C4 (amended): classify first normalizes the horizontal angle into
[0, 360) and assigns the 90-degree-wide sectors with boundaries at
45/135/225/315 as the code does: [45,135) is "Front", [135,225) is
"Right", [225,315) is "Back" and the remaining wrap-around sector is
"Left"; consequently get_view_name at (0, 45) is "Left" and at the
normalized horizontal angle 90 it is "Front". -/
theorem classify_sectors (h : ℝ) :
    0 ≤ normalizeH h ∧ normalizeH h < 360 ∧
      (45 ≤ normalizeH h → normalizeH h < 135 → viewDirection h = "Front") ∧
      (135 ≤ normalizeH h → normalizeH h < 225 → viewDirection h = "Right") ∧
      (225 ≤ normalizeH h → normalizeH h < 315 → viewDirection h = "Back") ∧
      (normalizeH h < 45 ∨ 315 ≤ normalizeH h → viewDirection h = "Left") ∧
      cam0.get_view_name = "Left" ∧ cam90.get_view_name = "Front" := by
  obtain ⟨hb0, hb1⟩ := normalizeH_bounds h
  refine ⟨hb0, hb1, ?_, ?_, ?_, ?_, cam_concrete_names.1, cam_concrete_names.2⟩
  · intro ha hc
    simp only [viewDirection]
    rw [if_pos ⟨ha, hc⟩]
  · intro ha hc
    simp only [viewDirection]
    rw [if_neg (by rintro ⟨x, y⟩; linarith), if_pos ⟨ha, hc⟩]
  · intro ha hc
    simp only [viewDirection]
    rw [if_neg (by rintro ⟨x, y⟩; linarith), if_neg (by rintro ⟨x, y⟩; linarith),
      if_pos ⟨ha, hc⟩]
  · intro hor
    simp only [viewDirection]
    rw [if_neg (by rintro ⟨x, y⟩; rcases hor with hh | hh <;> linarith),
      if_neg (by rintro ⟨x, y⟩; rcases hor with hh | hh <;> linarith),
      if_neg (by rintro ⟨x, y⟩; rcases hor with hh | hh <;> linarith)]

/-- C4 witness: the sector theorem applied at the concrete horizontal
angle 90, with both sector-membership hypotheses discharged there. -/
theorem classify_sectors_witness : viewDirection (90 : ℝ) = "Front" := by
  have e : normalizeH (90 : ℝ) = 90 := normalizeH_eq 90 (by norm_num) (by norm_num)
  have t := (classify_sectors 90).2.2.1
  rw [e] at t
  exact t (by norm_num) (by norm_num)

/-- C9: whenever the vertical angle is at least the high-elevation
threshold 60, the classification string is "Top" prefixed (with a
space) to one of the four cardinal directions; in particular it
carries the "Top" qualifier. -/
theorem top_qualifier_when_high (c : Camera) (hv : 60 ≤ c.orbit_angle_v) :
    ∃ d, (d = "Front" ∨ d = "Right" ∨ d = "Back" ∨ d = "Left") ∧
      c.get_view_name = "Top" ++ " " ++ d ∧
      "Top".data.isPrefixOf (c.get_view_name).data = true := by
  have hq : viewQualifier c.orbit_angle_v = "Top" := by
    simp only [viewQualifier]
    rw [if_pos hv]
  have hname : c.get_view_name = "Top" ++ " " ++ viewDirection c.orbit_angle_h := by
    simp only [Camera.get_view_name, hq]
    rw [if_pos (by decide : ("Top" : String) ≠ "")]
  refine ⟨viewDirection c.orbit_angle_h, viewDirection_cases c.orbit_angle_h, hname, ?_⟩
  rw [hname]
  rcases viewDirection_cases c.orbit_angle_h with hd | hd | hd | hd <;> rw [hd] <;> decide

/-- Camera at horizontal angle 0 and vertical angle 75. -/
def cam75 : Camera := ⟨(0, 0, 0), (0, 0, 0), (0, 1, 0), 20, 0, 75⟩

/-- C9 witness: the qualifier theorem applied at vertical angle 75. -/
theorem top_qualifier_when_high_witness :
    ∃ d, (d = "Front" ∨ d = "Right" ∨ d = "Back" ∨ d = "Left") ∧
      cam75.get_view_name = "Top" ++ " " ++ d ∧
      "Top".data.isPrefixOf (cam75.get_view_name).data = true :=
  top_qualifier_when_high cam75 (by norm_num [cam75])

/-- C10: the classification string starts with "Top" exactly when the
vertical angle is at least 60 (inclusive), starts with "Bottom"
exactly when it is at most -60 (inclusive), and with neither
qualifier the string is the bare cardinal direction. -/
theorem qualifier_iff_thresholds (c : Camera) :
    ("Top".data.isPrefixOf (c.get_view_name).data = true ↔ 60 ≤ c.orbit_angle_v) ∧
      ("Bottom".data.isPrefixOf (c.get_view_name).data = true ↔ c.orbit_angle_v ≤ -60) ∧
      (-60 < c.orbit_angle_v → c.orbit_angle_v < 60 →
        c.get_view_name = viewDirection c.orbit_angle_h) := by
  by_cases h60 : 60 ≤ c.orbit_angle_v
  · have hq : viewQualifier c.orbit_angle_v = "Top" := by
      simp only [viewQualifier]
      rw [if_pos h60]
    have hname : c.get_view_name = "Top" ++ " " ++ viewDirection c.orbit_angle_h := by
      simp only [Camera.get_view_name, hq]
      rw [if_pos (by decide : ("Top" : String) ≠ "")]
    rw [hname]
    rcases viewDirection_cases c.orbit_angle_h with hd | hd | hd | hd <;> rw [hd] <;>
      exact ⟨⟨fun _ => h60, fun _ => by decide⟩,
        ⟨fun hb => absurd hb (by decide), fun hv => absurd h60 (by intro; linarith)⟩,
        fun hgt hlt => absurd h60 (by intro; linarith)⟩
  · by_cases h60n : c.orbit_angle_v ≤ -60
    · have hq : viewQualifier c.orbit_angle_v = "Bottom" := by
        simp only [viewQualifier]
        rw [if_neg h60, if_pos h60n]
      have hname : c.get_view_name = "Bottom" ++ " " ++ viewDirection c.orbit_angle_h := by
        simp only [Camera.get_view_name, hq]
        rw [if_pos (by decide : ("Bottom" : String) ≠ "")]
      rw [hname]
      rcases viewDirection_cases c.orbit_angle_h with hd | hd | hd | hd <;> rw [hd] <;>
        exact ⟨⟨fun ht => absurd ht (by decide), fun hv => absurd hv h60⟩,
          ⟨fun _ => h60n, fun _ => by decide⟩,
          fun hgt hlt => absurd h60n (by intro; linarith)⟩
    · have hq : viewQualifier c.orbit_angle_v = "" := by
        simp only [viewQualifier]
        rw [if_neg h60, if_neg h60n]
      have hname : c.get_view_name = viewDirection c.orbit_angle_h := by
        simp only [Camera.get_view_name, hq]
        rw [if_neg (fun hc => hc rfl)]
      rw [hname]
      rcases viewDirection_cases c.orbit_angle_h with hd | hd | hd | hd <;> rw [hd] <;>
        exact ⟨⟨fun ht => absurd ht (by decide), fun hv => absurd hv h60⟩,
          ⟨fun hb => absurd hb (by decide), fun hv => absurd hv h60n⟩,
          fun _ _ => rfl⟩

/-- Camera at horizontal angle 0 and vertical angle exactly 60. -/
def cam60 : Camera := ⟨(0, 0, 0), (0, 0, 0), (0, 1, 0), 20, 0, 60⟩

/-- C10 witness: the threshold is inclusive — at vertical angle
exactly 60 the classification carries the "Top" qualifier. -/
theorem qualifier_iff_thresholds_witness :
    "Top".data.isPrefixOf (cam60.get_view_name).data = true :=
  ((qualifier_iff_thresholds cam60).1).mpr (by norm_num [cam60])

/-- Mouse buttons dispatched by the callbacks. -/
inductive MouseButton where
  | left
  | middle
  | right

/-- CADPlatform state relevant to input dispatch (src/main.py lines
129-139): the camera, the three pressed flags and the last cursor
sample.  The rendering-only fields are outside the embedded core. -/
structure CADPlatform where
  camera : Camera
  left_mouse_pressed : Bool
  middle_mouse_pressed : Bool
  right_mouse_pressed : Bool
  last_x : ℝ
  last_y : ℝ

/-- CADPlatform.__init__ (src/main.py lines 130-136). -/
def CADPlatform.init : CADPlatform where
  camera := Camera.init
  left_mouse_pressed := false
  middle_mouse_pressed := false
  right_mouse_pressed := false
  last_x := 0
  last_y := 0

/-- CADPlatform.mouse_callback (src/main.py lines 204-221): when any
button is held, compute the deltas against the last sample and run
exactly one camera operation chosen by the if/elif chain — orbit for
left, pan for middle, vertical-only pan for right; then always store
the new cursor position.  The final inner else is unreachable under
the outer guard and only makes the Lean match total. -/
def CADPlatform.mouse_callback (p : CADPlatform) (x_pos y_pos : ℝ) : CADPlatform :=
  let p1 :=
    if p.left_mouse_pressed || p.middle_mouse_pressed || p.right_mouse_pressed then
      let dx := x_pos - p.last_x
      let dy := p.last_y - y_pos
      if p.left_mouse_pressed then
        { p with camera := p.camera.process_orbit dx dy }
      else if p.middle_mouse_pressed then
        { p with camera := p.camera.process_pan dx dy }
      else if p.right_mouse_pressed then
        { p with camera := p.camera.process_pan 0 dy }
      else p
    else p
  { p1 with last_x := x_pos, last_y := y_pos }

/-- CADPlatform.mouse_button_callback (src/main.py lines 223-249):
a press sets the corresponding flag and resamples the cursor position
(cx, cy stands for the glfw.get_cursor_pos read); a release clears
the flag. -/
def CADPlatform.mouse_button_callback (p : CADPlatform) (button : MouseButton)
    (pressed : Bool) (cx cy : ℝ) : CADPlatform :=
  match button with
  | .left =>
      if pressed then
        { p with left_mouse_pressed := true, last_x := cx, last_y := cy }
      else
        { p with left_mouse_pressed := false }
  | .middle =>
      if pressed then
        { p with middle_mouse_pressed := true, last_x := cx, last_y := cy }
      else
        { p with middle_mouse_pressed := false }
  | .right =>
      if pressed then
        { p with right_mouse_pressed := true, last_x := cx, last_y := cy }
      else
        { p with right_mouse_pressed := false }

/-- Platform after pressing the middle button at cursor (0, 0). -/
def platMiddleHeld : CADPlatform :=
  CADPlatform.init.mouse_button_callback .middle true 0 0

/-- Platform after then pressing the left button at cursor (0, 0),
so middle is the first-held button and left was pressed later. -/
def platMiddleThenLeft : CADPlatform :=
  platMiddleHeld.mouse_button_callback .left true 0 0

/-- Platform after then moving the pointer to (10, 0). -/
def platAfterMove : CADPlatform :=
  platMiddleThenLeft.mouse_callback 10 0

/-- C7 counterexample: with the middle button pressed first and the
left button pressed later, the pointer move runs the orbit operation
of the later-pressed left button — the horizontal angle becomes 5 —
whereas the pan operation of the first-held middle button would have
left the horizontal angle at 0.  The later-pressed button does
override the first-held one. -/
theorem later_left_press_overrides_middle :
    platMiddleThenLeft.middle_mouse_pressed = true ∧
      platMiddleThenLeft.left_mouse_pressed = true ∧
      platAfterMove.camera.orbit_angle_h = 5 ∧
      (platMiddleThenLeft.camera.process_pan 10 0).orbit_angle_h = 0 ∧
      (5 : ℝ) ≠ 0 := by
  refine ⟨rfl, rfl, ?_, ?_, by norm_num⟩
  · simp [platAfterMove, platMiddleThenLeft, platMiddleHeld, CADPlatform.init,
      CADPlatform.mouse_callback, CADPlatform.mouse_button_callback,
      Camera.process_orbit, Camera.update_camera_vectors, Camera.init, camSensitivity]
    norm_num
  · simp [platMiddleThenLeft, platMiddleHeld, CADPlatform.init,
      CADPlatform.mouse_button_callback, Camera.process_pan, Camera.init]

/-- C7 (amended): each pointer-move event applies at most one drag
operation, selected by the fixed priority left (orbit) over middle
(pan) over right (vertical pan), regardless of the order in which the
buttons were pressed; with no button held the camera is untouched. -/
theorem mouse_move_single_mode_priority (p : CADPlatform) (x y : ℝ) :
    (p.left_mouse_pressed = true →
      (p.mouse_callback x y).camera =
        p.camera.process_orbit (x - p.last_x) (p.last_y - y)) ∧
      (p.left_mouse_pressed = false → p.middle_mouse_pressed = true →
        (p.mouse_callback x y).camera =
          p.camera.process_pan (x - p.last_x) (p.last_y - y)) ∧
      (p.left_mouse_pressed = false → p.middle_mouse_pressed = false →
        p.right_mouse_pressed = true →
        (p.mouse_callback x y).camera = p.camera.process_pan 0 (p.last_y - y)) ∧
      (p.left_mouse_pressed = false → p.middle_mouse_pressed = false →
        p.right_mouse_pressed = false →
        (p.mouse_callback x y).camera = p.camera) := by
  refine ⟨?_, ?_, ?_, ?_⟩
  · intro hl
    simp [CADPlatform.mouse_callback, hl]
  · intro hl hm
    simp [CADPlatform.mouse_callback, hl, hm]
  · intro hl hm hr
    simp [CADPlatform.mouse_callback, hl, hm, hr]
  · intro hl hm hr
    simp [CADPlatform.mouse_callback, hl, hm, hr]

/-- C7 witness: the priority theorem applied to the concrete platform
holding both the middle and the left button — the left branch fires
even though middle is also held. -/
theorem mouse_move_single_mode_priority_witness :
    (platMiddleThenLeft.mouse_callback 10 0).camera =
      platMiddleThenLeft.camera.process_orbit
        (10 - platMiddleThenLeft.last_x) (platMiddleThenLeft.last_y - 0) :=
  (mouse_move_single_mode_priority platMiddleThenLeft 10 0).1 rfl

end

end StandardVolumes
